import Mathlib

/-!
Verification of the posting scheduler and action-processing pipeline of
packages/client-twitter/src/post.ts.

The TypeScript source is shallowly embedded: pure string helpers become Lean
functions on List Char / String, and the effectful orchestration functions
(sendTweet, generateNewTweet, generateNewTweetLoop, processTweetActions,
handleTextOnlyReply) become pure functions from an environment record (one
field per external-collaborator call site) to an explicit list of observable
effects, mirroring the source's control flow, try/catch scopes and early
returns statement by statement.
-/

set_option maxRecDepth 10000

/-! ## JS string primitives used by the source -/

/-- The whitespace class recognized by JS String.prototype.trim and the regex
class backslash-s (restricted to the ASCII characters that can actually occur
in the claims; wider Unicode whitespace is not modelled). -/
def isJsWs (c : Char) : Bool :=
  c == ' ' || c == '\t' || c == '\n' || c == '\r' || c == '\x0b' || c == '\x0c'

/-- JS String.prototype.trim on a character list. -/
def jsTrim (s : List Char) : List Char :=
  ((s.dropWhile isJsWs).reverse.dropWhile isJsWs).reverse

/-- Search downward from index k for the last occurrence of c. -/
def lastIdxAux (s : List Char) (c : Char) : Nat → Int
  | 0 => if s.get? 0 == some c then 0 else -1
  | k+1 => if s.get? (k+1) == some c then ((k+1 : Nat) : Int) else lastIdxAux s c k

/-- JS String.prototype.lastIndexOf(c, frm) for a one-character search string:
the largest index at most min frm (length-1) holding c, else -1. -/
def jsLastIndexOfFrom (s : List Char) (c : Char) (frm : Nat) : Int :=
  lastIdxAux s c (min frm s.length)

/-- JS String.prototype.slice(0, e): a negative end counts from the end of the
string. -/
def jsSliceTo (s : List Char) (e : Int) : List Char :=
  if e < 0 then s.take (s.length - e.natAbs) else s.take e.toNat

/-- Embeds truncateToCompleteSentence (post.ts lines 68-96): return text
unchanged when it fits, else cut at the last period found by
lastIndexOf(".", maxTweetLength), else at the last space with an ellipsis,
else hard-cut to maxTweetLength - 3 characters with an ellipsis. -/
def truncateToCompleteSentence (text : List Char) (maxTweetLength : Nat) : List Char :=
  if text.length ≤ maxTweetLength then text
  else
    let truncatedAtPeriod := jsSliceTo text (jsLastIndexOfFrom text '.' maxTweetLength + 1)
    if 0 < (jsTrim truncatedAtPeriod).length then jsTrim truncatedAtPeriod
    else
      let truncatedAtSpace := jsSliceTo text (jsLastIndexOfFrom text ' ' maxTweetLength)
      if 0 < (jsTrim truncatedAtSpace).length then
        jsTrim truncatedAtSpace ++ ['.', '.', '.']
      else
        jsTrim (jsSliceTo text ((maxTweetLength : Int) - 3)) ++ ['.', '.', '.']

example : truncateToCompleteSentence "Hello world.".toList 280 = "Hello world.".toList := by decide
example : truncateToCompleteSentence "a.aaa.bcd".toList 5 = "a.aaa.".toList := by decide
example : truncateToCompleteSentence "ab cd efgh".toList 7 = "ab cd...".toList := by decide

/-! ## JSON.parse model

The source calls the JS builtin JSON.parse on raw model output (post.ts line
663). A fuel-indexed recursive-descent parser for the JSON grammar: objects,
arrays, strings with escapes, strict numbers, true/false/null. -/

inductive Json where
  | null
  | bool (b : Bool)
  | num (lexeme : String)
  | str (s : String)
  | arr (elems : List Json)
  | obj (fields : List (String × Json))

/-- The whitespace JSON.parse skips between tokens (space, tab, LF, CR). -/
def isJsonWs (c : Char) : Bool :=
  c == ' ' || c == '\t' || c == '\n' || c == '\r'

def skipJsonWs (s : List Char) : List Char := s.dropWhile isJsonWs

def hexVal (c : Char) : Option Nat :=
  if '0' ≤ c ∧ c ≤ '9' then some (c.toNat - '0'.toNat)
  else if 'a' ≤ c ∧ c ≤ 'f' then some (c.toNat - 'a'.toNat + 10)
  else if 'A' ≤ c ∧ c ≤ 'F' then some (c.toNat - 'A'.toNat + 10)
  else none

/-- Parse the body of a JSON string after the opening quote, handling the
escape sequences of the grammar; surrogate pairs are not recombined. -/
def parseStringBody : List Char → Option (List Char × List Char)
  | [] => none
  | '"' :: rest => some ([], rest)
  | '\\' :: rest =>
    match rest with
    | '"' :: r => (parseStringBody r).map fun p => ('"' :: p.1, p.2)
    | '\\' :: r => (parseStringBody r).map fun p => ('\\' :: p.1, p.2)
    | '/' :: r => (parseStringBody r).map fun p => ('/' :: p.1, p.2)
    | 'b' :: r => (parseStringBody r).map fun p => ('\x08' :: p.1, p.2)
    | 'f' :: r => (parseStringBody r).map fun p => ('\x0c' :: p.1, p.2)
    | 'n' :: r => (parseStringBody r).map fun p => ('\n' :: p.1, p.2)
    | 'r' :: r => (parseStringBody r).map fun p => ('\r' :: p.1, p.2)
    | 't' :: r => (parseStringBody r).map fun p => ('\t' :: p.1, p.2)
    | 'u' :: a :: b :: c :: d :: r =>
      match hexVal a, hexVal b, hexVal c, hexVal d with
      | some x, some y, some z, some w =>
        let n := ((x * 16 + y) * 16 + z) * 16 + w
        let ch := if n < 0xd800 ∨ 0xe000 ≤ n then Char.ofNat n else '�'
        (parseStringBody r).map fun p => (ch :: p.1, p.2)
      | _, _, _, _ => none
    | _ => none
  | c :: rest =>
    if c.toNat < 0x20 then none
    else (parseStringBody rest).map fun p => (c :: p.1, p.2)

def parseIntPart : List Char → Option (List Char × List Char)
  | '0' :: r => some (['0'], r)
  | c :: r =>
    if c.isDigit then
      let p := r.span (fun d => d.isDigit)
      some (c :: p.1, p.2)
    else none
  | [] => none

def parseFracPart (s : List Char) : Option (List Char × List Char) :=
  match s with
  | '.' :: r =>
    match r.span (fun d => d.isDigit) with
    | ([], _) => none
    | (ds, r2) => some ('.' :: ds, r2)
  | _ => some ([], s)

def parseExpPart (s : List Char) : Option (List Char × List Char) :=
  match s with
  | c :: r =>
    if c == 'e' || c == 'E' then
      let sp := match r with
                | '+' :: rr => (['+'], rr)
                | '-' :: rr => (['-'], rr)
                | _ => (([] : List Char), r)
      match sp.2.span (fun d => d.isDigit) with
      | ([], _) => none
      | (ds, r2) => some (c :: sp.1 ++ ds, r2)
    else some ([], s)
  | [] => some ([], [])

/-- Strict JSON number lexeme: optional minus, no leading zeros, optional
fraction and exponent. -/
def parseNumLex (s : List Char) : Option (List Char × List Char) :=
  let sp := match s with
            | '-' :: r => (['-'], r)
            | _ => (([] : List Char), s)
  match parseIntPart sp.2 with
  | none => none
  | some (ip, r) =>
    match parseFracPart r with
    | none => none
    | some (fp, r2) =>
      match parseExpPart r2 with
      | none => none
      | some (ep, r3) => some (sp.1 ++ ip ++ fp ++ ep, r3)

mutual

def parseValue : Nat → List Char → Option (Json × List Char)
  | 0, _ => none
  | fuel+1, s =>
    match skipJsonWs s with
    | '\x7b' :: rest =>
      (match skipJsonWs rest with
       | '\x7d' :: r => some (.obj [], r)
       | r => (parseMembers fuel r).map fun p => (.obj p.1, p.2))
    | '[' :: rest =>
      (match skipJsonWs rest with
       | ']' :: r => some (.arr [], r)
       | r => (parseElems fuel r).map fun p => (.arr p.1, p.2))
    | '"' :: rest => (parseStringBody rest).map fun p => (.str (String.mk p.1), p.2)
    | 't' :: 'r' :: 'u' :: 'e' :: r => some (.bool true, r)
    | 'f' :: 'a' :: 'l' :: 's' :: 'e' :: r => some (.bool false, r)
    | 'n' :: 'u' :: 'l' :: 'l' :: r => some (.null, r)
    | s2 => (parseNumLex s2).map fun p => (.num (String.mk p.1), p.2)

def parseMembers : Nat → List Char → Option (List (String × Json) × List Char)
  | 0, _ => none
  | fuel+1, s =>
    match skipJsonWs s with
    | '"' :: rest =>
      match parseStringBody rest with
      | none => none
      | some (key, r1) =>
        match skipJsonWs r1 with
        | ':' :: r2 =>
          match parseValue fuel r2 with
          | none => none
          | some (v, r3) =>
            match skipJsonWs r3 with
            | ',' :: r4 =>
              (parseMembers fuel r4).map fun p => ((String.mk key, v) :: p.1, p.2)
            | '\x7d' :: r4 => some ([(String.mk key, v)], r4)
            | _ => none
        | _ => none
    | _ => none

def parseElems : Nat → List Char → Option (List Json × List Char)
  | 0, _ => none
  | fuel+1, s =>
    match parseValue fuel s with
    | none => none
    | some (v, r) =>
      match skipJsonWs r with
      | ',' :: r2 => (parseElems fuel r2).map fun p => (v :: p.1, p.2)
      | ']' :: r2 => some ([v], r2)
      | _ => none

end

/-- JSON.parse: parse one value and require only whitespace after it. -/
def jsonParse (raw : String) : Option Json :=
  match parseValue (raw.length + 1) raw.toList with
  | some (v, rest) => if skipJsonWs rest = [] then some v else none
  | none => none

example : jsonParse "\x7b\"text\": \"hello\"\x7d" = some (.obj [("text", .str "hello")]) := rfl
example : jsonParse "hello" = none := rfl
example : jsonParse "" = none := rfl

/-! ## Content cleaning (post.ts lines 658-704) -/

/-- JS object property lookup on a parsed JSON object: with duplicate keys the
last occurrence wins, as JSON.parse builds the object left to right. -/
def jsGet (fields : List (String × Json)) (key : String) : Option Json :=
  ((fields.filter (fun p => p.1 == key)).getLast?).map (fun p => p.2)

/-- Whether a JSON number lexeme denotes a nonzero value: some mantissa digit
is nonzero (floating-point underflow of tiny exponents is not modelled). -/
def numIsNonZero (lexeme : String) : Bool :=
  (lexeme.toList.takeWhile (fun c => c != 'e' && c != 'E')).any
    (fun c => '1' ≤ c && c ≤ '9')

/-- JS truthiness of a parsed JSON value. -/
def jsTruthy : Json → Bool
  | .null => false
  | .bool b => b
  | .num l => numIsNonZero l
  | .str s => s != ""
  | .arr _ => true
  | .obj _ => true

/-- The value assigned to cleanedContent from parsedResponse.text; string
coercion of non-string values is approximate (the claims only exercise the
string case). -/
def jsStringOfJson : Json → String
  | .str s => s
  | .num l => l
  | .bool true => "true"
  | .bool false => "false"
  | .null => "null"
  | .arr _ => ""
  | .obj _ => "[object Object]"

/-- Prefix alternative of the wrapper-stripping regex at line 673: anchored at
position 0, whitespace, an optional opening brace, whitespace, the literal
quoted key text with its colon, whitespace, one double quote. Returns the
remainder after the match. -/
def matchTextWrapperAlt1 (s : List Char) : Option (List Char) :=
  let s1 := s.dropWhile isJsWs
  let s2 := match s1 with
            | '\x7b' :: r => r.dropWhile isJsWs
            | _ => s1
  match s2 with
  | '"' :: 't' :: 'e' :: 'x' :: 't' :: '"' :: ':' :: r =>
    match r.dropWhile isJsWs with
    | '"' :: r2 => some r2
    | _ => none
  | _ => none

/-- Suffix alternative of the same regex tested at one position: a double
quote, whitespace, an optional closing brace, whitespace, end of input. -/
def matchEndWrapperHere (s : List Char) : Bool :=
  match s with
  | '"' :: r =>
    let r1 := r.dropWhile isJsWs
    let r2 := match r1 with
              | '\x7d' :: rr => rr.dropWhile isJsWs
              | _ => r1
    r2.isEmpty
  | _ => false

/-- Remove the leftmost suffix matching the end-wrapper alternative. -/
def stripEndWrapper : List Char → List Char
  | [] => []
  | c :: rest => if matchEndWrapperHere (c :: rest) then [] else c :: stripEndWrapper rest

/-- The global replace of the two-alternative wrapper regex: the anchored
alternative can only match once at position 0 and the suffix alternative
consumes to the end, so a global replace removes at most one span of each. -/
def stripTextWrapper (s : List Char) : List Char :=
  stripEndWrapper (match matchTextWrapperAlt1 s with
                   | some r => r
                   | none => s)

def isQuoteCh (c : Char) : Bool := c == '"' || c == '\''

/-- Characters the regex dot does not match (JS line terminators). -/
def jsLineTerm (c : Char) : Bool :=
  c == '\n' || c == '\r' || c.toNat == 0x2028 || c.toNat == 0x2029

/-- The quote-stripping regex at lines 674 and 698-699: anchored at both ends,
a quote character, any characters the dot matches, a quote character. -/
def stripSurroundingQuotes (s : List Char) : List Char :=
  match s with
  | c :: rest =>
    match rest.getLast? with
    | some lc =>
      if isQuoteCh c && isQuoteCh lc && !(rest.dropLast.any jsLineTerm) then rest.dropLast
      else c :: rest
    | none => [c]
  | [] => []

/-- Global non-overlapping left-to-right replacement of a two-character
literal pattern (both escape patterns replaced by the source have two
characters). -/
def replace2 (a b : Char) (rep : List Char) : List Char → List Char
  | [] => []
  | [c] => [c]
  | c :: d :: rest =>
    if c == a && d == b then rep ++ replace2 a b rep rest
    else c :: replace2 a b rep (d :: rest)

/-- The catch-branch cleaning chain of lines 672-677: strip the JSON-like
wrapper, strip surrounding quotes, unescape embedded quotes, unescape newline
escapes, trim. -/
def regexClean (raw : String) : String :=
  String.mk (jsTrim
    (replace2 '\\' 'n' ['\n']
      (replace2 '\\' '"' ['"']
        (stripSurroundingQuotes (stripTextWrapper raw.toList)))))

/-- The content-cleaning step of generateNewTweet (lines 658-689): try
JSON.parse; use a truthy text field, else the bare parsed string; reading
the text property of a parsed null throws, landing in the catch branch, as
does any parse failure. -/
def cleanContent (newTweetContent : String) : String :=
  match jsonParse newTweetContent with
  | some .null => regexClean newTweetContent
  | some parsed =>
    let textField := match parsed with
                     | .obj fs => jsGet fs "text"
                     | _ => none
    match textField with
    | some tv =>
      if jsTruthy tv then jsStringOfJson tv
      else match parsed with
           | .str s => s
           | _ => ""
    | none =>
      match parsed with
      | .str s => s
      | _ => ""
  | none => regexClean newTweetContent

/-- removeQuotes at lines 698-699. -/
def removeQuotes (str : String) : String := String.mk (stripSurroundingQuotes str.toList)

/-- fixNewLines at line 701. -/
def fixNewLines (str : String) : String := String.mk (replace2 '\\' 'n' ['\n'] str.toList)

/-- truncateToCompleteSentence on String values. -/
def truncStr (s : String) (n : Nat) : String := String.mk (truncateToCompleteSentence s.toList n)

/-- Lines 692-704: truncate the cleaned content, then the final cleaning. -/
def finalContent (cleaned : String) (maxTweetLength : Nat) : String :=
  removeQuotes (fixNewLines (truncStr cleaned maxTweetLength))

example : cleanContent "\x7b\"text\": \"hello\"\x7d" = "hello" := by decide
example : cleanContent "hello" = "hello" := by decide
example : cleanContent "" = "" := by decide
example : cleanContent "\"hello\"" = "hello" := by decide
example : cleanContent "Hello world." = "Hello world." := by decide

/-! ## Data model -/

structure ActionResponse where
  like : Bool
  retweet : Bool
  quote : Bool
  reply : Bool
deriving Repr, DecidableEq

structure Tweet where
  id : String
  userId : String
  username : String
  name : String
  text : String
  conversationId : String
  permanentUrl : String
  timestamp : Nat
deriving Repr, DecidableEq

inductive CacheVal where
  | schedule (timestamp scheduledAt intervalMinutes : Nat) (lastExecutionDuration : Option Nat)
  | lastPostTs (timestamp : Nat)
  | lastPostIdTs (id : String) (timestamp : Nat)
  | genContext
deriving Repr, DecidableEq

/-- One observable interaction with the Memory Store, Platform Client or
cache, in program order. -/
inductive Effect where
  | ensureUser
  | timelineFetch
  | cacheGet (key : String)
  | memoryGet (key : String)
  | likeCall (id : String)
  | retweetAttempt (id : String)
  | quoteSend (id : String)
  | replySend (id : String)
  | ensureRoom (key : String)
  | memoryCreate (key : String) (executedActions : List String)
  | generateTextCall
  | sendPost (text : String) (withMedia : Bool)
  | cacheTweet (id : String)
  | memoryCreatePost (id : String)
  | cacheSet (key : String) (val : CacheVal)
deriving Repr, DecidableEq

structure ResultEntry where
  tweetId : String
  parsedActions : ActionResponse
  executedActions : List String
deriving Repr, DecidableEq

/-- stringToUuid from the core library: a deterministic injective mapping of
strings to UUID strings, modelled as the identity. -/
def stringToUuid (s : String) : String := s

/-! ## Action Executor Pipeline (processTweetActions, lines 1015-1318)

Each environment field stands for one external-collaborator call site; an
error value means that call threw. -/

structure ActionsEnv where
  agentId : String
  /-- ensureUserExists at 1027 completes without throwing. -/
  ensureUserExistsOk : Bool
  /-- fetchTimelineForActions(15) at 1034. -/
  fetchTimeline : Except Unit (List Tweet)
  /-- getMemoryById at 1041: a record already exists under the key. -/
  getMemoryById : String → Bool
  /-- composeState, composeContext and generateTweetActions at 1055-1080:
  an error is a throw (caught by the per-tweet catch at 1302), none is a
  null decision. -/
  generateActions : Tweet → Except Unit (Option ActionResponse)
  likeTweet : String → Except Unit Unit
  retweetCall : String → Except Unit Unit
  /-- the quote branch up to and including generateTweetContent (1121-1201):
  an error is a throw caught at 1245, the string is the generated content. -/
  quoteContentFor : Tweet → Except Unit String
  /-- sendQuoteTweet plus response parse (1216-1224): the Bool is whether the
  body carries the success indicator. -/
  sendQuoteResult : Tweet → Except Unit Bool
  /-- handleTextOnlyReply up to generateTweetContent (1327-1393). -/
  replyContentFor : Tweet → Except Unit String
  sendReplyResult : Tweet → Except Unit Bool
  /-- ensureRoomExists/ensureUserExists/ensureParticipantInRoom/createMemory
  at 1269-1295 complete without throwing. -/
  createMemoryOk : Tweet → Bool

def memKey (env : ActionsEnv) (t : Tweet) : String :=
  stringToUuid (t.id ++ "-" ++ env.agentId)

def roomKey (env : ActionsEnv) (t : Tweet) : String :=
  stringToUuid (t.conversationId ++ "-" ++ env.agentId)

/-- The four action executions for one item (lines 1092-1266), each in its
own try/catch; the Bool is the early return at 1207 taken when quote-content
generation yields empty output. -/
def execActions (env : ActionsEnv) (t : Tweet) (ar : ActionResponse) :
    List Effect × List String × Bool :=
  let likeStep : List Effect × List String :=
    if ar.like then
      match env.likeTweet t.id with
      | .ok _ => ([.likeCall t.id], ["like"])
      | .error _ => ([.likeCall t.id], [])
    else ([], [])
  let retweetStep : List Effect × List String :=
    if ar.retweet then
      match env.retweetCall t.id with
      | .ok _ => ([.retweetAttempt t.id], ["retweet"])
      | .error _ => ([.retweetAttempt t.id], [])
    else ([], [])
  let quoteStep : List Effect × List String × Bool :=
    if ar.quote then
      match env.quoteContentFor t with
      | .error _ => ([], [], false)
      | .ok qc =>
        if qc = "" then ([], [], true)
        else
          match env.sendQuoteResult t with
          | .error _ => ([.quoteSend t.id], [], false)
          | .ok true =>
            ([.quoteSend t.id,
              .cacheSet ("twitter/quote_generation_" ++ t.id ++ ".txt") .genContext],
             ["quote"], false)
          | .ok false => ([.quoteSend t.id], [], false)
    else ([], [], false)
  if quoteStep.2.2 then
    (likeStep.1 ++ retweetStep.1 ++ quoteStep.1,
     likeStep.2 ++ retweetStep.2 ++ quoteStep.2.1, true)
  else
    let replyStep : List Effect × List String :=
      if ar.reply then
        match env.replyContentFor t with
        | .error _ => ([], [])
        | .ok rc =>
          if rc = "" then ([], [])
          else
            match env.sendReplyResult t with
            | .error _ => ([.replySend t.id], [])
            | .ok true =>
              ([.replySend t.id,
                .cacheSet ("twitter/reply_generation_" ++ t.id ++ ".txt") .genContext],
               ["reply"])
            | .ok false => ([.replySend t.id], [])
      else ([], [])
    (likeStep.1 ++ retweetStep.1 ++ quoteStep.1 ++ replyStep.1,
     likeStep.2 ++ retweetStep.2 ++ quoteStep.2.1 ++ replyStep.2, false)

inductive ItemOutcome where
  | skipProcessed
  | skipError
  | skipNoAction
  | earlyReturn
  | done (entry : ResultEntry)
deriving Repr, DecidableEq

/-- One iteration of the candidate loop (lines 1037-1308): the
already-processed check, the decision, the action executions, and the
memory record written only on the done outcome. -/
def processOneTweet (env : ActionsEnv) (t : Tweet) : List Effect × ItemOutcome :=
  let k := memKey env t
  if env.getMemoryById k then ([.memoryGet k], .skipProcessed)
  else
    match env.generateActions t with
    | .error _ => ([.memoryGet k], .skipError)
    | .ok none => ([.memoryGet k], .skipNoAction)
    | .ok (some ar) =>
      let ex := execActions env t ar
      if ex.2.2 then (.memoryGet k :: ex.1, .earlyReturn)
      else if env.createMemoryOk t then
        (.memoryGet k :: ex.1 ++ [.ensureRoom (roomKey env t), .memoryCreate k ex.2.1],
         .done ⟨t.id, ar, ex.2.1⟩)
      else (.memoryGet k :: ex.1, .skipError)

/-- The candidate loop over the fetched batch; the Bool reports that the
early return at 1207 aborted the loop (the results built so far are then
discarded by the return statement). -/
def processTweets (env : ActionsEnv) : List Tweet → List Effect × List ResultEntry × Bool
  | [] => ([], [], false)
  | t :: rest =>
    match processOneTweet env t with
    | (effs, .earlyReturn) => (effs, [], true)
    | (effs, .done entry) =>
      let r := processTweets env rest
      (effs ++ r.1, entry :: r.2.1, r.2.2)
    | (effs, _) =>
      let r := processTweets env rest
      (effs ++ r.1, r.2.1, r.2.2)

structure PState where
  isProcessing : Bool
  lastProcessTime : Nat
deriving Repr, DecidableEq

/-- processTweetActions (lines 1015-1318): the isProcessing guard at entry,
the body inside try, and the finally that clears the flag on every exit,
normal, early-returning or throwing. -/
def processTweetActions (env : ActionsEnv) (st : PState) (now : Nat) :
    Except Unit (Option (List ResultEntry)) × PState × List Effect :=
  if st.isProcessing then (.ok none, st, [])
  else
    let stFin : PState := ⟨false, now⟩
    if env.ensureUserExistsOk then
      match env.fetchTimeline with
      | .error _ => (.error (), stFin, [.ensureUser, .timelineFetch])
      | .ok tweets =>
        let r := processTweets env tweets
        if r.2.2 then (.ok none, stFin, .ensureUser :: .timelineFetch :: r.1)
        else (.ok (some r.2.1), stFin, .ensureUser :: .timelineFetch :: r.1)
    else (.error (), stFin, [.ensureUser])

/-! ## Post Generator (generateNewTweet, lines 594-898) -/

structure PostEnv where
  username : String
  agentId : String
  /-- IMAGE_GEN setting compared to the string true (598). -/
  imageGen : Bool
  /-- the random draw against the clamped chance (606-608). -/
  shouldGenerateImage : Bool
  /-- TWITTER_DRY_RUN setting (706). -/
  dryRun : Bool
  /-- MAX_TWEET_LENGTH setting with its default (694-695). -/
  maxTweetLength : Nat
  /-- ensureUserExists/composeState/composeContext (617-648) complete. -/
  composeOk : Bool
  /-- generateText at 652: the raw model response, or a throw. -/
  generateText : Except Unit String
  /-- the imageGeneration plugin was found with a handler (727-730). -/
  imagePluginPresent : Bool
  /-- imageAction.handler at 782: an error is a throw; some is success with
  data; none is a result without success or data. -/
  imageHandlerResult : Except Unit (Option String)
  /-- imageToBuffer on the handler data (797) completes. -/
  imageToBufferOk : Bool
  /-- twitterClient.sendTweet with media (811) completes. -/
  sendMediaOk : Bool
  /-- this.sendTweet threw internally (request queue, json parse, or one of
  the post-success writes). -/
  sendTweetThrows : Bool
  /-- the response body carries data.create_tweet.tweet_results.result (536). -/
  sendTweetBodyOk : Bool
  /-- rest_id of the created tweet on success. -/
  tweetId : String

def lastPostKey (username : String) : String := "twitter/" ++ username ++ "/lastPost"

def scheduleKey (username : String) : String := "twitter/" ++ username ++ "/nextTweetTime"

def generateRoomKey (username : String) : String :=
  stringToUuid ("twitter_generate_room-" ++ username)

/-- this.sendTweet (lines 517-592): queue the post, validate the response
body; when the success indicator is absent it logs and returns early, and
only on success caches the post, caches the tweet and writes the post's
memory record. First component: completed without throwing. -/
def sendTweetModel (env : PostEnv) (textArg : String) (now : Nat) : Bool × List Effect :=
  if env.sendTweetThrows then (false, [.sendPost textArg false])
  else if env.sendTweetBodyOk then
    (true, [.sendPost textArg false,
            .cacheSet (lastPostKey env.username) (.lastPostIdTs env.tweetId now),
            .cacheTweet env.tweetId,
            .ensureRoom (generateRoomKey env.username),
            .memoryCreatePost (stringToUuid (env.tweetId ++ "-" ++ env.agentId))])
  else (true, [.sendPost textArg false])

/-- The publish phase of generateNewTweet (lines 716-882): none models the
early return at 734 when the image plugin is missing; otherwise the Bool is
whether the phase completed without throwing and so reaches the lastPost
cache write at 884. A throw from the handler, the buffer conversion or the
media send is rethrown at 849, caught at 851 and degrades to the text-only
this.sendTweet; a handler result without success or data takes the same
text-only fallback at 829. The media path at 811 posts the variable content,
the text-only path posts the final cleaned content. -/
def publishPhase (env : PostEnv) (content cleaned2 : String) (now : Nat) :
    Option (Bool × List Effect) :=
  if env.imageGen && env.shouldGenerateImage then
    if !env.imagePluginPresent then none
    else
      match env.imageHandlerResult with
      | .ok (some _data) =>
        if env.imageToBufferOk then
          if env.sendMediaOk then some (true, [.sendPost content true])
          else
            let f := sendTweetModel env cleaned2 now
            some (f.1, .sendPost content true :: f.2)
        else
          let f := sendTweetModel env cleaned2 now
          some (f.1, f.2)
      | .ok none =>
        let f := sendTweetModel env cleaned2 now
        some (f.1, f.2)
      | .error _ =>
        let f := sendTweetModel env cleaned2 now
        some (f.1, f.2)
  else
    let f := sendTweetModel env cleaned2 now
    some (f.1, f.2)

/-- generateNewTweet (lines 594-898): compose, generate, clean, truncate,
final-clean, dry-run check, publish phase, and on an untrown publish the
unconditional lastPost cache write at 884-891. Outer catches at 892 and 895
swallow throws, so the function itself never throws. -/
def generateNewTweet (env : PostEnv) (now : Nat) : List Effect :=
  if !env.composeOk then []
  else
    match env.generateText with
    | .error _ => [.generateTextCall]
    | .ok raw =>
      let cleaned := cleanContent raw
      if cleaned = "" then [.generateTextCall]
      else
        let content := truncStr cleaned env.maxTweetLength
        let cleaned2 := removeQuotes (fixNewLines content)
        if env.dryRun then [.generateTextCall]
        else
          match publishPhase env content cleaned2 now with
          | none => [.generateTextCall]
          | some (false, effs) => .generateTextCall :: effs
          | some (true, effs) =>
            .generateTextCall ::
              (effs ++ [.cacheSet (lastPostKey env.username) (.lastPostTs now)])

/-! ## Run Loop Supervisor: posting schedule (generateNewTweetLoop, 206-296) -/

structure LoopEnv where
  username : String
  /-- cacheManager.get of lastPost at 208: the stored timestamp if present;
  an absent record is treated as 0 at 214. -/
  lastPost : Option Nat
  /-- POST_INTERVAL_MIN/MAX after parsing with defaults (215-220). -/
  minMinutes : Nat
  maxMinutes : Nat
  /-- the uniform integer draw in the inclusive range (221-223). -/
  randomMinutes : Nat
  now : Nat
  /-- executionEnd - executionStart around the due-branch generation. -/
  executionDuration : Nat
  postEnv : PostEnv

/-- One evaluation of the posting schedule (lines 206-296): read lastPost,
draw the interval, and either generate and persist the due-branch schedule
record with the execution duration (256-268) or persist the not-yet-due
record (275-284). -/
def generateNewTweetLoop (env : LoopEnv) : List Effect :=
  let lastPostTimestamp := env.lastPost.getD 0
  let delay := env.randomMinutes * 60 * 1000
  let nextTweetTime := lastPostTimestamp + delay
  if nextTweetTime ≤ env.now then
    .cacheGet (lastPostKey env.username) ::
      (generateNewTweet env.postEnv env.now ++
        [.cacheSet (scheduleKey env.username)
          (.schedule (env.now + delay) env.now env.randomMinutes
            (some env.executionDuration))])
  else
    [.cacheGet (lastPostKey env.username),
     .cacheSet (scheduleKey env.username)
       (.schedule nextTweetTime env.now env.randomMinutes none)]

/-! ## Trace observers -/

/-- The ProcessedItemMemory records created during a trace. -/
def memoryCreates (tr : List Effect) : List (String × List String) :=
  tr.filterMap fun e =>
    match e with
    | .memoryCreate k a => some (k, a)
    | _ => none

/-- The post memory records created during a trace. -/
def postMemoryCreates (tr : List Effect) : List String :=
  tr.filterMap fun e =>
    match e with
    | .memoryCreatePost i => some i
    | _ => none

/-- The cacheTweet calls of a trace. -/
def cacheTweets (tr : List Effect) : List String :=
  tr.filterMap fun e =>
    match e with
    | .cacheTweet i => some i
    | _ => none

/-- The publish attempts of a trace. -/
def sendPosts (tr : List Effect) : List (String × Bool) :=
  tr.filterMap fun e =>
    match e with
    | .sendPost s m => some (s, m)
    | _ => none

/-! ## Concrete fixtures -/

def tweetA : Tweet :=
  ⟨"100", "u1", "alice1", "Alice", "first tweet", "c1", "https://t/100", 1111⟩

def tweetB : Tweet :=
  ⟨"200", "u2", "bob2", "Bob", "second tweet", "c2", "https://t/200", 2222⟩

def tweetC : Tweet :=
  ⟨"300", "u3", "carol3", "Carol", "third tweet", "c3", "https://t/300", 3333⟩

def envBase : ActionsEnv :=
  { agentId := "agent"
    ensureUserExistsOk := true
    fetchTimeline := .ok []
    getMemoryById := fun _ => false
    generateActions := fun _ => .ok none
    likeTweet := fun _ => .ok ()
    retweetCall := fun _ => .ok ()
    quoteContentFor := fun _ => .ok "generated quote"
    sendQuoteResult := fun _ => .ok true
    replyContentFor := fun _ => .ok "generated reply"
    sendReplyResult := fun _ => .ok true
    createMemoryOk := fun _ => true }

/-- The spec's end-to-end scenario: three candidates, the first already
processed, the second yielding a null decision, the third a like-only
decision that succeeds. -/
def envScenario : ActionsEnv :=
  { envBase with
    fetchTimeline := .ok [tweetA, tweetB, tweetC]
    getMemoryById := fun k => k == stringToUuid (tweetA.id ++ "-" ++ "agent")
    generateActions := fun t =>
      if t.id == tweetB.id then .ok none
      else .ok (some ⟨true, false, false, false⟩) }

/-- A batch where the first item's decision enables quote and reply but
quote-content generation yields empty output, with a second fresh item
behind it. -/
def envEmptyQuote : ActionsEnv :=
  { envBase with
    fetchTimeline := .ok [tweetA, tweetB]
    generateActions := fun t =>
      if t.id == tweetA.id then .ok (some ⟨false, false, true, true⟩)
      else .ok (some ⟨true, false, false, false⟩)
    quoteContentFor := fun _ => .ok "" }

/-- Decision like and retweet where the like call throws. -/
def envLikeThrows : ActionsEnv :=
  { envBase with
    generateActions := fun _ => .ok (some ⟨true, true, false, false⟩)
    likeTweet := fun _ => .error () }

/-! ## C7 -/

/-- C7: if processTweetActions is invoked while the isProcessing guard is
set, the invocation returns null, leaves the state unchanged and performs no
reads or writes against the Memory Store, the Platform Client or the cache
(empty effect trace). -/
theorem processTweetActions_guard_noop (env : ActionsEnv) (st : PState) (now : Nat)
    (h : st.isProcessing = true) :
    processTweetActions env st now = (.ok none, st, []) := by
  simp [processTweetActions, h]

/-- Witness for C7 at a concrete environment and a set guard. -/
theorem processTweetActions_guard_noop_witness :
    processTweetActions envBase ⟨true, 5⟩ 9 = (.ok none, ⟨true, 5⟩, []) :=
  processTweetActions_guard_noop envBase ⟨true, 5⟩ 9 rfl

/-! ## C10 -/

/-- C10: every invocation of processTweetActions that passes the entry guard
leaves isProcessing false on exit, whether the body returns results, takes
the early return, or throws (the finally at 1315-1317 always clears it). -/
theorem processTweetActions_clears_isProcessing (env : ActionsEnv) (st : PState)
    (now : Nat) (h : st.isProcessing = false) :
    ((processTweetActions env st now).2.1).isProcessing = false := by
  unfold processTweetActions
  rw [h, if_neg Bool.false_ne_true]
  split
  · split
    · rfl
    · dsimp only
      split <;> rfl
  · rfl

/-- Witness for C10 at a concrete environment whose timeline fetch throws. -/
theorem processTweetActions_clears_isProcessing_witness :
    ((processTweetActions { envBase with fetchTimeline := .error () } ⟨false, 0⟩ 3).2.1).isProcessing
      = false :=
  processTweetActions_clears_isProcessing { envBase with fetchTimeline := .error () } ⟨false, 0⟩ 3 rfl

/-! ## C4 -/

/-- C4: for an item whose decision is like and retweet, a throwing like call
does not prevent the retweet attempt; when the retweet succeeds the item's
outcome and its memory record carry exactly the executed action list
consisting of the single retweet label. -/
theorem processOneTweet_likeFailure_retweet_attempted (env : ActionsEnv) (t : Tweet)
    (hm : env.getMemoryById (memKey env t) = false)
    (hd : env.generateActions t = .ok (some ⟨true, true, false, false⟩))
    (hl : env.likeTweet t.id = .error ())
    (hr : env.retweetCall t.id = .ok ())
    (hc : env.createMemoryOk t = true) :
    Effect.retweetAttempt t.id ∈ (processOneTweet env t).1 ∧
    Effect.memoryCreate (memKey env t) ["retweet"] ∈ (processOneTweet env t).1 ∧
    (processOneTweet env t).2 = .done ⟨t.id, ⟨true, true, false, false⟩, ["retweet"]⟩ := by
  simp [processOneTweet, execActions, hm, hd, hl, hr, hc]

/-- Witness for C4 at a concrete environment. -/
theorem processOneTweet_likeFailure_retweet_attempted_witness :
    Effect.retweetAttempt "100" ∈ (processOneTweet envLikeThrows tweetA).1 ∧
    Effect.memoryCreate "100-agent" ["retweet"] ∈ (processOneTweet envLikeThrows tweetA).1 ∧
    (processOneTweet envLikeThrows tweetA).2 =
      .done ⟨"100", ⟨true, true, false, false⟩, ["retweet"]⟩ :=
  processOneTweet_likeFailure_retweet_attempted envLikeThrows tweetA rfl rfl rfl rfl rfl

/-! ## C2 -/

/-- C2 evaluated at the failing input: when the first item's quote action is
enabled and quote-content generation yields empty output, the return at 1207
exits processTweetActions itself: the result is null, the reply enabled for
the same item is never attempted, no ProcessedItemMemory is written for it,
and the second candidate of the batch is never examined. -/
theorem processTweetActions_emptyQuote_aborts_run :
    processTweetActions envEmptyQuote ⟨false, 0⟩ 0 =
      (.ok none, ⟨false, 0⟩, [.ensureUser, .timelineFetch, .memoryGet "100-agent"]) :=
  rfl

/-! ## C1 -/

/-- C1 counterexample: in the spec's end-to-end scenario (one item already
processed, one null decision, one successful like-only decision) the run
returns a single result entry and creates a single ProcessedItemMemory
record, because the null-decision item is skipped at 1082-1087 without a
record — contradicting the claimed two entries and two new records. -/
theorem processTweetActions_scenario_cex :
    processTweetActions envScenario ⟨false, 0⟩ 0 =
      (.ok (some [⟨"300", ⟨true, false, false, false⟩, ["like"]⟩]), ⟨false, 0⟩,
       [.ensureUser, .timelineFetch, .memoryGet "100-agent", .memoryGet "200-agent",
        .memoryGet "300-agent", .likeCall "300", .ensureRoom "c3-agent",
        .memoryCreate "300-agent" ["like"]]) ∧
    (memoryCreates (processTweetActions envScenario ⟨false, 0⟩ 0).2.2).length = 1 :=
  ⟨rfl, rfl⟩

/-- C1 amended: a fetched candidate not already present whose decision is
non-null gets a ProcessedItemMemory tagged with the executed actions, when
its memory write succeeds and it does not hit the empty-quote early return;
a null-decision candidate is skipped with no record; in the spec's scenario
the result list has one entry and the Memory Store gains one record. -/
theorem processTweetActions_record_amended :
    (∀ (env : ActionsEnv) (t : Tweet),
      env.getMemoryById (memKey env t) = false →
      env.generateActions t = .ok none →
      processOneTweet env t = ([.memoryGet (memKey env t)], .skipNoAction)) ∧
    (∀ (env : ActionsEnv) (t : Tweet) (ar : ActionResponse),
      env.getMemoryById (memKey env t) = false →
      env.generateActions t = .ok (some ar) →
      env.createMemoryOk t = true →
      (processOneTweet env t).2 ≠ .earlyReturn →
      Effect.memoryCreate (memKey env t) (execActions env t ar).2.1 ∈ (processOneTweet env t).1 ∧
      (processOneTweet env t).2 = .done ⟨t.id, ar, (execActions env t ar).2.1⟩) ∧
    (processTweetActions envScenario ⟨false, 0⟩ 0).1 =
      .ok (some [⟨"300", ⟨true, false, false, false⟩, ["like"]⟩]) ∧
    (memoryCreates (processTweetActions envScenario ⟨false, 0⟩ 0).2.2).length = 1 := by
  refine ⟨?_, ?_, rfl, rfl⟩
  · intro env t hm hd
    simp [processOneTweet, hm, hd]
  · intro env t ar hm hd hc hne
    by_cases hq : (execActions env t ar).2.2 = true
    · exfalso
      apply hne
      simp [processOneTweet, hm, hd, hq]
    · simp only [Bool.not_eq_true] at hq
      simp [processOneTweet, hm, hd, hq, hc]

/-- Witness for C1's amended general parts at concrete inputs. -/
theorem processTweetActions_record_amended_witness :
    processOneTweet envScenario tweetB = ([.memoryGet "200-agent"], .skipNoAction) ∧
    Effect.memoryCreate "300-agent" ["like"] ∈ (processOneTweet envScenario tweetC).1 ∧
    (processOneTweet envScenario tweetC).2 =
      .done ⟨"300", ⟨true, false, false, false⟩, ["like"]⟩ :=
  ⟨processTweetActions_record_amended.1 envScenario tweetB rfl rfl,
   processTweetActions_record_amended.2.1 envScenario tweetC ⟨true, false, false, false⟩
     rfl rfl rfl (by decide)⟩

/-! ## Post Generator fixtures -/

/-- A text-only cycle whose platform response lacks the success indicator. -/
def envBadResponse : PostEnv :=
  { username := "alice"
    agentId := "agent"
    imageGen := false
    shouldGenerateImage := false
    dryRun := false
    maxTweetLength := 280
    composeOk := true
    generateText := .ok "Hello world."
    imagePluginPresent := true
    imageHandlerResult := .ok none
    imageToBufferOk := true
    sendMediaOk := true
    sendTweetThrows := false
    sendTweetBodyOk := false
    tweetId := "900" }

/-- Image generation selected but the plugin lookup fails. -/
def envPluginAbsent : PostEnv :=
  { envBadResponse with
    imageGen := true
    shouldGenerateImage := true
    imagePluginPresent := false
    sendTweetBodyOk := true }

/-- Image generation selected, plugin present, handler reports no data. -/
def envMediaFallback : PostEnv :=
  { envPluginAbsent with imagePluginPresent := true }

/-- The model returns an empty response. -/
def envEmptyGen : PostEnv := { envBadResponse with generateText := .ok "" }

/-! ## C3 -/

/-- C3 counterexample: with the success indicator absent from the send-post
response, the cycle still writes the lastPost schedule timestamp at 884-891
(sendTweet returns normally after its early return at 536-539), even though
no post memory record is created and no tweet is cached. -/
theorem generateNewTweet_badResponse_writes_lastPost_cex :
    generateNewTweet envBadResponse 7 =
      [.generateTextCall, .sendPost "Hello world." false,
       .cacheSet "twitter/alice/lastPost" (.lastPostTs 7)] ∧
    Effect.cacheSet "twitter/alice/lastPost" (.lastPostTs 7) ∈ generateNewTweet envBadResponse 7 ∧
    postMemoryCreates (generateNewTweet envBadResponse 7) = [] ∧
    cacheTweets (generateNewTweet envBadResponse 7) = [] :=
  ⟨rfl, by decide, rfl, rfl⟩

/-- C3 amended: when the send-post response lacks the success indicator in a
text-only cycle, no post memory record is created and no tweet is cached, but
the caller still writes the last-post schedule timestamp, so the posting
schedule advances as if the post had been sent. -/
theorem generateNewTweet_badResponse_amended (env : PostEnv) (now : Nat) (raw : String)
    (hco : env.composeOk = true)
    (hg : env.generateText = .ok raw)
    (hcl : cleanContent raw ≠ "")
    (hd : env.dryRun = false)
    (hi : env.imageGen = false)
    (ht : env.sendTweetThrows = false)
    (hb : env.sendTweetBodyOk = false) :
    generateNewTweet env now =
      [.generateTextCall,
       .sendPost (finalContent (cleanContent raw) env.maxTweetLength) false,
       .cacheSet (lastPostKey env.username) (.lastPostTs now)] := by
  simp [generateNewTweet, publishPhase, sendTweetModel, finalContent,
        hco, hg, hcl, hd, hi, ht, hb]

/-- Witness for C3's amended claim at a concrete environment. -/
theorem generateNewTweet_badResponse_amended_witness :
    generateNewTweet envBadResponse 7 =
      [.generateTextCall,
       .sendPost (finalContent (cleanContent "Hello world.") 280) false,
       .cacheSet (lastPostKey "alice") (.lastPostTs 7)] :=
  generateNewTweet_badResponse_amended envBadResponse 7 "Hello world."
    rfl rfl (by decide) rfl rfl rfl rfl

/-! ## C5 -/

/-- C5 counterexample: with image generation enabled and selected but the
imageGeneration plugin absent, the return at 734 ends the cycle without any
publish attempt, contradicting that media failure never prevents publishing. -/
theorem generateNewTweet_pluginAbsent_cex :
    generateNewTweet envPluginAbsent 0 = [.generateTextCall] ∧
    sendPosts (generateNewTweet envPluginAbsent 0) = [] :=
  ⟨rfl, rfl⟩

/-- C5 amended: after a successful plugin lookup, a media failure (handler
throwing, handler reporting no success or data, or the buffer conversion
throwing) degrades the cycle to a text-only publish of the generated content;
but when the plugin is absent or its handler unavailable, the cycle ends
without publishing. -/
theorem generateNewTweet_mediaFailure_amended (env : PostEnv) (now : Nat) (raw : String)
    (hco : env.composeOk = true)
    (hg : env.generateText = .ok raw)
    (hcl : cleanContent raw ≠ "")
    (hd : env.dryRun = false)
    (hi : env.imageGen = true)
    (hs : env.shouldGenerateImage = true)
    (ht : env.sendTweetThrows = false) :
    (env.imagePluginPresent = false → generateNewTweet env now = [.generateTextCall]) ∧
    ((env.imageHandlerResult = .error () ∨ env.imageHandlerResult = .ok none) →
      env.imagePluginPresent = true →
      (finalContent (cleanContent raw) env.maxTweetLength, false) ∈
        sendPosts (generateNewTweet env now)) ∧
    (∀ d, env.imageHandlerResult = .ok (some d) → env.imageToBufferOk = false →
      env.imagePluginPresent = true →
      (finalContent (cleanContent raw) env.maxTweetLength, false) ∈
        sendPosts (generateNewTweet env now)) := by
  refine ⟨?_, ?_, ?_⟩
  · intro hp
    simp [generateNewTweet, publishPhase, hco, hg, hcl, hd, hi, hs, hp]
  · intro hf hp
    rcases hf with hf | hf <;>
      by_cases hb : env.sendTweetBodyOk <;>
        simp [generateNewTweet, publishPhase, sendTweetModel, finalContent, sendPosts,
              hco, hg, hcl, hd, hi, hs, hp, ht, hf, hb]
  · intro d hf hbuf hp
    by_cases hb : env.sendTweetBodyOk <;>
      simp [generateNewTweet, publishPhase, sendTweetModel, finalContent, sendPosts,
            hco, hg, hcl, hd, hi, hs, hp, ht, hf, hbuf, hb]

/-- Witness for C5's amended claim: the no-data handler result falls back to
a text-only publish. -/
theorem generateNewTweet_mediaFailure_amended_witness :
    (finalContent (cleanContent "Hello world.") 280, false) ∈
      sendPosts (generateNewTweet envMediaFallback 2) :=
  (generateNewTweet_mediaFailure_amended envMediaFallback 2 "Hello world."
    rfl rfl (by decide) rfl rfl rfl rfl).2.1 (Or.inr rfl) rfl

/-! ## C9 -/

/-- C9: the content-cleaning step maps a response wrapped as a JSON object
with a text field to that field, maps a bare response to itself, and maps
empty input to empty content, in which case generateNewTweet aborts with no
publish, cache write or memory write. -/
theorem cleanContent_spec :
    cleanContent "\x7b\"text\": \"hello\"\x7d" = "hello" ∧
    cleanContent "hello" = "hello" ∧
    cleanContent "" = "" ∧
    (∀ (env : PostEnv) (now : Nat) (raw : String),
      env.composeOk = true → env.generateText = .ok raw → cleanContent raw = "" →
      generateNewTweet env now = [.generateTextCall]) := by
  refine ⟨by decide, by decide, by decide, ?_⟩
  intro env now raw hco hg hcl
  simp [generateNewTweet, hco, hg, hcl]

/-- Witness for C9's abort clause at a concrete environment. -/
theorem cleanContent_spec_witness :
    generateNewTweet envEmptyGen 3 = [.generateTextCall] :=
  cleanContent_spec.2.2.2 envEmptyGen 3 "" rfl rfl rfl

/-! ## C8 -/

/-- C8: every evaluation of the posting schedule persists a ScheduleState
record under the nextTweetTime key carrying the next due time, the evaluation
time and the drawn interval: in the due branch after generating, with the
execution duration; in the not-yet-due branch without it. -/
theorem generateNewTweetLoop_persists_schedule (env : LoopEnv) :
    (env.lastPost.getD 0 + env.randomMinutes * 60 * 1000 ≤ env.now →
      Effect.cacheSet (scheduleKey env.username)
          (.schedule (env.now + env.randomMinutes * 60 * 1000) env.now env.randomMinutes
            (some env.executionDuration)) ∈ generateNewTweetLoop env) ∧
    (env.now < env.lastPost.getD 0 + env.randomMinutes * 60 * 1000 →
      Effect.cacheSet (scheduleKey env.username)
          (.schedule (env.lastPost.getD 0 + env.randomMinutes * 60 * 1000) env.now
            env.randomMinutes none) ∈ generateNewTweetLoop env) := by
  constructor
  · intro h
    simp [generateNewTweetLoop, h]
  · intro h
    have hn : ¬ (env.lastPost.getD 0 + env.randomMinutes * 60 * 1000 ≤ env.now) := by omega
    simp [generateNewTweetLoop, hn]

/-- A due posting-schedule evaluation. -/
def loopEnvDue : LoopEnv :=
  { username := "alice"
    lastPost := none
    minMinutes := 90
    maxMinutes := 180
    randomMinutes := 90
    now := 6000000
    executionDuration := 42
    postEnv := envBadResponse }

/-- Witness for C8 at a concrete due evaluation. -/
theorem generateNewTweetLoop_persists_schedule_witness :
    Effect.cacheSet (scheduleKey "alice")
        (.schedule (6000000 + 90 * 60 * 1000) 6000000 90 (some 42)) ∈
      generateNewTweetLoop loopEnvDue :=
  (generateNewTweetLoop_persists_schedule loopEnvDue).1 (by decide)

/-! ## C6 -/

/-- The downward search of lastIdxAux finds the largest index at most k
holding c, whenever one exists. -/
theorem lastIdxAux_found (s : List Char) (c : Char) :
    ∀ k : Nat, (∃ i, i ≤ k ∧ s.get? i = some c) →
      ∃ m : Nat, lastIdxAux s c k = (m : Int) ∧ m ≤ k ∧ s.get? m = some c ∧
        ∀ j, j ≤ k → s.get? j = some c → j ≤ m := by
  intro k
  induction k with
  | zero =>
    rintro ⟨i, hi, hc⟩
    have h0 : i = 0 := Nat.le_zero.mp hi
    subst h0
    refine ⟨0, ?_, Nat.le_refl 0, hc, ?_⟩
    · simp only [lastIdxAux]
      rw [hc]
      simp
    · intro j hj _
      exact hj
  | succ k ih =>
    rintro ⟨i, hi, hc⟩
    by_cases hk : s.get? (k + 1) = some c
    · refine ⟨k + 1, ?_, Nat.le_refl _, hk, ?_⟩
      · simp only [lastIdxAux]
        rw [hk]
        simp
      · intro j hj _
        exact hj
    · have hi' : i ≤ k := by
        rcases Nat.lt_or_ge i (k + 1) with h | h
        · omega
        · exfalso
          have hik : i = k + 1 := by omega
          exact hk (hik ▸ hc)
      obtain ⟨m, hm1, hm2, hm3, hm4⟩ := ih ⟨i, hi', hc⟩
      refine ⟨m, ?_, Nat.le_succ_of_le hm2, hm3, ?_⟩
      · have hbeq : (s.get? (k + 1) == some c) = false := by
          simp only [beq_eq_false_iff_ne, ne_eq]
          exact hk
        simp only [lastIdxAux]
        rw [hbeq]
        simpa using hm1
      · intro j hj hcj
        have hj' : j ≤ k := by
          by_contra hgt
          have hjk : j = k + 1 := by omega
          exact hk (hjk ▸ hcj)
        exact hm4 j hj' hcj

/-- Trimming a list whose last character is not whitespace only strips from
the front, keeps the last character, and stays nonempty. -/
theorem jsTrim_of_getLast_not_ws (l : List Char) (c : Char)
    (hl : l.getLast? = some c) (hc : isJsWs c = false) :
    jsTrim l = l.dropWhile isJsWs ∧ (jsTrim l).getLast? = some c ∧ jsTrim l ≠ [] := by
  have hd_ne : l.dropWhile isJsWs ≠ [] := by
    intro hdnil
    have hltw : l = l.takeWhile isJsWs := by
      conv_lhs => rw [← List.takeWhile_append_dropWhile (p := isJsWs) (l := l)]
      rw [hdnil, List.append_nil]
    have hcl : c ∈ l := List.mem_of_getLast?_eq_some hl
    have : isJsWs c = true := List.mem_takeWhile_imp (hltw ▸ hcl)
    rw [hc] at this
    exact Bool.false_ne_true this
  have hl' : (l.takeWhile isJsWs ++ l.dropWhile isJsWs).getLast? = some c := by
    rw [List.takeWhile_append_dropWhile]
    exact hl
  have hdlast : (l.dropWhile isJsWs).getLast? = some c := by
    rwa [List.getLast?_append_of_ne_nil _ hd_ne] at hl'
  have hrev_head : (l.dropWhile isJsWs).reverse.head? = some c := by
    rw [List.head?_reverse]
    exact hdlast
  have hdw : (l.dropWhile isJsWs).reverse.dropWhile isJsWs = (l.dropWhile isJsWs).reverse := by
    cases hrev : (l.dropWhile isJsWs).reverse with
    | nil => rfl
    | cons a t =>
      have hac : a = c := by
        rw [hrev] at hrev_head
        simpa using hrev_head
      subst hac
      simp [List.dropWhile_cons, hc]
  refine ⟨?_, ?_, ?_⟩
  · rw [jsTrim, hdw, List.reverse_reverse]
  · rw [jsTrim, hdw, List.reverse_reverse]
    exact hdlast
  · rw [jsTrim, hdw, List.reverse_reverse]
    exact hd_ne

/-- C6 counterexample: the period search uses lastIndexOf with fromIndex
maxLength, which admits a period at index maxLength itself: on this input the
result is cut at index 5, not at the last terminator strictly before index 5,
and its length exceeds maxLength. -/
theorem truncateToCompleteSentence_overrun_cex :
    truncateToCompleteSentence "a.aaa.bcd".toList 5 = "a.aaa.".toList ∧
    ¬ ((truncateToCompleteSentence "a.aaa.bcd".toList 5).length ≤ 5) :=
  ⟨by decide, by decide⟩

/-- C6 amended: a text at most maxLength long is returned unchanged; a longer
text holding a period at an index at most maxLength (not strictly before it)
is cut at the largest such index k: the result is the trimmed prefix through
k, ends with that period, and has length at most maxLength + 1 (not
maxLength). -/
theorem truncateToCompleteSentence_amended (text : List Char) (maxLen : Nat) :
    (text.length ≤ maxLen → truncateToCompleteSentence text maxLen = text) ∧
    (maxLen < text.length →
      ∀ i, i ≤ maxLen → text.get? i = some '.' →
        ∃ k : Nat,
          jsLastIndexOfFrom text '.' maxLen = (k : Int) ∧
          k ≤ maxLen ∧ text.get? k = some '.' ∧
          (∀ j, j ≤ maxLen → text.get? j = some '.' → j ≤ k) ∧
          truncateToCompleteSentence text maxLen = jsTrim (text.take (k + 1)) ∧
          (truncateToCompleteSentence text maxLen).length ≤ maxLen + 1 ∧
          (truncateToCompleteSentence text maxLen).getLast? = some '.') := by
  constructor
  · intro h
    simp [truncateToCompleteSentence, h]
  · intro hlen i hi hc
    have hil : i < text.length := by
      have := List.getElem?_eq_some_iff.mp (by rw [← List.get?_eq_getElem?]; exact hc)
      exact this.1
    have himin : i ≤ min maxLen text.length := le_min hi (Nat.le_of_lt hil)
    obtain ⟨m, hm_eq, hm_le, hm_get, hm_max⟩ :=
      lastIdxAux_found text '.' (min maxLen text.length) ⟨i, himin, hc⟩
    have hjs : jsLastIndexOfFrom text '.' maxLen = (m : Int) := hm_eq
    have hm_maxLen : m ≤ maxLen := Nat.le_trans hm_le (Nat.min_le_left _ _)
    have hm_lt : m < text.length := by
      have := List.getElem?_eq_some_iff.mp (by rw [← List.get?_eq_getElem?]; exact hm_get)
      exact this.1
    have hslice : jsSliceTo text ((m : Int) + 1) = text.take (m + 1) := by
      have h1 : ¬ ((m : Int) + 1 < 0) := by omega
      have h2 : ((m : Int) + 1).toNat = m + 1 := by omega
      rw [jsSliceTo, if_neg h1, h2]
    have htake_len : (text.take (m + 1)).length = m + 1 := by
      rw [List.length_take]
      omega
    have htake_last : (text.take (m + 1)).getLast? = some '.' := by
      rw [List.getLast?_eq_getElem?, htake_len, Nat.add_sub_cancel,
          List.getElem?_take_of_succ, ← List.get?_eq_getElem?]
      exact hm_get
    obtain ⟨htrim_eq, htrim_last, htrim_ne⟩ :=
      jsTrim_of_getLast_not_ws (text.take (m + 1)) '.' htake_last (by decide)
    have hpos : 0 < (jsTrim (text.take (m + 1))).length :=
      List.length_pos.mpr htrim_ne
    have hT : truncateToCompleteSentence text maxLen = jsTrim (text.take (m + 1)) := by
      unfold truncateToCompleteSentence
      rw [if_neg (Nat.not_le.mpr hlen)]
      simp only [hjs, hslice]
      rw [if_pos hpos]
    have hlen_bound : (truncateToCompleteSentence text maxLen).length ≤ maxLen + 1 := by
      rw [hT, htrim_eq]
      have h1 : ((text.take (m + 1)).dropWhile isJsWs).length ≤ (text.take (m + 1)).length :=
        (List.dropWhile_sublist _).length_le
      omega
    refine ⟨m, hjs, hm_maxLen, hm_get, ?_, hT, hlen_bound, ?_⟩
    · intro j hj hcj
      have hjl : j < text.length := by
        have := List.getElem?_eq_some_iff.mp (by rw [← List.get?_eq_getElem?]; exact hcj)
        exact this.1
      exact hm_max j (le_min hj (Nat.le_of_lt hjl)) hcj
    · rw [hT]
      exact htrim_last

/-- Witness for C6's amended claim at concrete inputs. -/
theorem truncateToCompleteSentence_amended_witness :
    truncateToCompleteSentence "ab".toList 5 = "ab".toList ∧
    (∃ k : Nat,
      jsLastIndexOfFrom "a.aaa.bcd".toList '.' 5 = (k : Int) ∧
      k ≤ 5 ∧ "a.aaa.bcd".toList.get? k = some '.' ∧
      (∀ j, j ≤ 5 → "a.aaa.bcd".toList.get? j = some '.' → j ≤ k) ∧
      truncateToCompleteSentence "a.aaa.bcd".toList 5 =
        jsTrim ("a.aaa.bcd".toList.take (k + 1)) ∧
      (truncateToCompleteSentence "a.aaa.bcd".toList 5).length ≤ 5 + 1 ∧
      (truncateToCompleteSentence "a.aaa.bcd".toList 5).getLast? = some '.') :=
  ⟨(truncateToCompleteSentence_amended "ab".toList 5).1 (by decide),
   (truncateToCompleteSentence_amended "a.aaa.bcd".toList 5).2 (by decide) 1 (by decide)
     (by decide)⟩
